import Mathlib

/-!
Shallow embedding of the DHT20 sensor-acquisition pipeline from
`components/dht20_api/src/dht20_api.c`.

Conventions of the embedding:
* `uint8_t` / `uint32_t` values are `Nat` with explicit `% 256` where the C
  code truncates; frames are `List Nat` of length 7 whose entries are < 256.
* `float` arithmetic is modelled as exact rational arithmetic (`ℚ`); the C
  `isfinite` check is trivially true in this model.
* `esp_err_t` is `Nat`, with the concrete ESP-IDF error codes.
* C out-parameters become explicit state passing: a function that may leave
  its out-parameter untouched takes the previous value and returns the new
  one, so "not written" is "returned unchanged".
-/

set_option maxRecDepth 4096

def ESP_OK : Nat := 0
def ESP_ERR_INVALID_ARG : Nat := 0x102
def ESP_ERR_INVALID_STATE : Nat := 0x103
def ESP_ERR_TIMEOUT : Nat := 0x107
def ESP_ERR_INVALID_CRC : Nat := 0x109

def DHT20_STATUS_BUSY_MASK : Nat := 1 <<< 7
def DHT20_STATUS_CAL_MASK : Nat := 1 <<< 3
def DHT20_DATA_LEN : Nat := 7

/-- One inner iteration of `dht20_crc8`: shift the 8-bit register left,
xoring in the polynomial 0x31 when the MSB was set. -/
def dht20_crc8_bit (crc : Nat) : Nat :=
  if crc &&& 0x80 ≠ 0 then ((crc <<< 1) ^^^ 0x31) % 256
  else (crc <<< 1) % 256

/-- The eight inner iterations of `dht20_crc8` for one data byte,
after the byte has been xored into the register. -/
def dht20_crc8_byte (crc : Nat) : Nat :=
  dht20_crc8_bit (dht20_crc8_bit (dht20_crc8_bit (dht20_crc8_bit
    (dht20_crc8_bit (dht20_crc8_bit (dht20_crc8_bit (dht20_crc8_bit crc)))))))

/-- `dht20_crc8`: 8-bit CRC, polynomial 0x31, initial value 0xFF,
MSB-first, no final XOR, over the given bytes. -/
def dht20_crc8 (data : List Nat) : Nat :=
  data.foldl (fun crc b => dht20_crc8_byte ((crc ^^^ b) % 256)) 0xFF

/-- `dht20_sample_t`: timestamp, raw 20-bit counts, physical values. -/
structure dht20_sample_t where
  timestamp_us : Nat
  humidity_raw : Nat
  temperature_raw : Nat
  humidity_rh : ℚ
  temperature_c : ℚ
  deriving Repr, DecidableEq

/-- `dht20_clampf`. -/
def dht20_clampf (value min_v max_v : ℚ) : ℚ :=
  if value < min_v then min_v
  else if value > max_v then max_v
  else value

/-- The linear humidity transfer function `raw * 100.0f / 1048576.0f`. -/
def dht20_humidity_from_raw (raw : Nat) : ℚ :=
  ((raw : ℚ) * 100) / 1048576

/-- The linear temperature transfer function
`raw * 200.0f / 1048576.0f - 50.0f`. -/
def dht20_temperature_from_raw (raw : Nat) : ℚ :=
  ((raw : ℚ) * 200) / 1048576 - 50

/-- `dht20_parse_sample`: takes the 7-byte frame, the current monotonic
time (`esp_timer_get_time()`), and the previous contents of the caller's
out-parameter `sample`; returns the error code and the (possibly
unchanged) out-parameter contents. -/
def dht20_parse_sample (raw : List Nat) (nowUs : Nat)
    (sample : dht20_sample_t) : Nat × dht20_sample_t :=
  if raw.getD 0 0 &&& DHT20_STATUS_BUSY_MASK ≠ 0 then
    (ESP_ERR_INVALID_STATE, sample)
  else if dht20_crc8 (raw.take (DHT20_DATA_LEN - 1)) ≠ raw.getD (DHT20_DATA_LEN - 1) 0 then
    (ESP_ERR_INVALID_CRC, sample)
  else
    let humidity_raw :=
      (raw.getD 1 0 <<< 12) ||| (raw.getD 2 0 <<< 4) ||| (raw.getD 3 0 >>> 4)
    let temperature_raw :=
      ((raw.getD 3 0 &&& 0x0F) <<< 16) ||| (raw.getD 4 0 <<< 8) ||| raw.getD 5 0
    (ESP_OK,
      { timestamp_us := nowUs
        humidity_raw := humidity_raw
        temperature_raw := temperature_raw
        humidity_rh := dht20_humidity_from_raw humidity_raw
        temperature_c := dht20_temperature_from_raw temperature_raw })

/-- `dht20_read_measurement`: the transport read either fails with a code or
delivers a 7-byte frame; on transport failure the error propagates and the
out-parameter is untouched, otherwise the frame is parsed. -/
def dht20_read_measurement (transport : Nat × List Nat) (nowUs : Nat)
    (sample : dht20_sample_t) : Nat × dht20_sample_t :=
  if transport.1 ≠ ESP_OK then (transport.1, sample)
  else dht20_parse_sample transport.2 nowUs sample

/-- The loop body of `dht20_read_measurement_wait`, over a finite trace of
iterations.  Each trace entry supplies the error code returned by
`dht20_read_measurement` for that attempt together with the elapsed time
`esp_timer_get_time() - start_us` observed right after the attempt.
`none` means the trace was exhausted with the loop still running. -/
def dht20_read_measurement_wait (timeoutUs : Int) :
    List (Nat × Int) → Option Nat
  | [] => none
  | (err, elapsedUs) :: rest =>
    if err = ESP_OK then some ESP_OK
    else if err ≠ ESP_ERR_INVALID_STATE then some err
    else if elapsedUs ≥ timeoutUs then some ESP_ERR_TIMEOUT
    else dht20_read_measurement_wait timeoutUs rest

/-- `dht20_filter_t`. -/
structure dht20_filter_t where
  initialized : Bool
  alpha : ℚ
  humidity_rh : ℚ
  temperature_c : ℚ
  deriving Repr, DecidableEq

/-- `dht20_filter_init`: takes the previous contents of the caller's filter
struct; on argument failure the struct is untouched.  (`isfinite(alpha)` is
trivially true over ℚ.) -/
def dht20_filter_init (filter : dht20_filter_t) (alpha : ℚ) :
    Nat × dht20_filter_t :=
  if alpha > 0 ∧ alpha ≤ 1 then
    (ESP_OK, { initialized := false, alpha := alpha,
               humidity_rh := 0, temperature_c := 0 })
  else (ESP_ERR_INVALID_ARG, filter)

/-- `dht20_filter_reset`: clears the initialized flag. -/
def dht20_filter_reset (filter : dht20_filter_t) : dht20_filter_t :=
  { filter with initialized := false }

/-- `dht20_filter_apply`: returns the error code, the updated filter state,
and the written output sample (`none` when the output is not written, i.e.
on the `INVALID_STATE` guard). -/
def dht20_filter_apply (filter : dht20_filter_t) (input : dht20_sample_t) :
    Nat × dht20_filter_t × Option dht20_sample_t :=
  if ¬(filter.alpha > 0 ∧ filter.alpha ≤ 1) then
    (ESP_ERR_INVALID_STATE, filter, none)
  else
    let filter' : dht20_filter_t :=
      if !filter.initialized then
        { filter with temperature_c := input.temperature_c
                      humidity_rh := input.humidity_rh
                      initialized := true }
      else
        { filter with
            temperature_c := filter.alpha * input.temperature_c
              + (1 - filter.alpha) * filter.temperature_c
            humidity_rh := filter.alpha * input.humidity_rh
              + (1 - filter.alpha) * filter.humidity_rh }
    let output : dht20_sample_t :=
      { input with temperature_c := filter'.temperature_c
                   humidity_rh := dht20_clampf filter'.humidity_rh 0 100 }
    (ESP_OK, filter', some output)

/-- `dht20_sample_apply_offset`. -/
def dht20_sample_apply_offset (sample : dht20_sample_t)
    (temperature_offset_c humidity_offset_rh : ℚ) : Nat × dht20_sample_t :=
  (ESP_OK,
    { sample with
        temperature_c := sample.temperature_c + temperature_offset_c
        humidity_rh :=
          dht20_clampf (sample.humidity_rh + humidity_offset_rh) 0 100 })

/-- A concrete sample value used as the prior contents of out-parameters. -/
def sample0 : dht20_sample_t :=
  { timestamp_us := 0, humidity_raw := 0, temperature_raw := 0,
    humidity_rh := 0, temperature_c := 0 }

/-- A valid 7-byte frame: busy bit clear, correct checksum. -/
def goodFrame : List Nat := [0x00, 0x66, 0x66, 0x66, 0x33, 0x33, 0x65]

/-- A frame with the busy bit set and an incorrect checksum byte. -/
def busyBadCrcFrame : List Nat := [0x80, 0x66, 0x66, 0x66, 0x33, 0x33, 0x00]

theorem getD_byte_lt (l : List Nat) (i : Nat) (h : ∀ b ∈ l, b < 256) :
    l.getD i 0 < 256 := by
  rcases Nat.lt_or_ge i l.length with hi | hi
  · rw [List.getD_eq_getElem _ _ hi]
    exact h _ (List.getElem_mem hi)
  · rw [List.getD_eq_default _ _ hi]
    norm_num

theorem clampf_mem (x : ℚ) :
    0 ≤ dht20_clampf x 0 100 ∧ dht20_clampf x 0 100 ≤ 100 := by
  unfold dht20_clampf
  split
  · norm_num
  · rename_i h1
    split
    · norm_num
    · rename_i h2
      push_neg at h1 h2
      exact ⟨h1, h2⟩

theorem clampf_eq_self (x : ℚ) (h0 : 0 ≤ x) (h100 : x ≤ 100) :
    dht20_clampf x 0 100 = x := by
  unfold dht20_clampf
  split
  · linarith
  · split
    · linarith
    · rfl

/-- Bound on the raw humidity bit-packing over in-range bytes. -/
theorem hum_raw_lt (raw : List Nat) (h : ∀ b ∈ raw, b < 256) :
    (raw.getD 1 0 <<< 12) ||| (raw.getD 2 0 <<< 4) ||| (raw.getD 3 0 >>> 4)
      < 2 ^ 20 := by
  have h1 := getD_byte_lt raw 1 h
  have h2 := getD_byte_lt raw 2 h
  have h3 := getD_byte_lt raw 3 h
  refine Nat.or_lt_two_pow (Nat.or_lt_two_pow ?_ ?_) ?_
  · rw [Nat.shiftLeft_eq]
    calc raw.getD 1 0 * 2 ^ 12 < 256 * 2 ^ 12 :=
          mul_lt_mul_of_pos_right h1 (by norm_num)
      _ ≤ 2 ^ 20 := by norm_num
  · rw [Nat.shiftLeft_eq]
    calc raw.getD 2 0 * 2 ^ 4 < 256 * 2 ^ 4 :=
          mul_lt_mul_of_pos_right h2 (by norm_num)
      _ ≤ 2 ^ 20 := by norm_num
  · rw [Nat.shiftRight_eq_div_pow]
    have hdiv := Nat.div_le_self (raw.getD 3 0) (2 ^ 4)
    exact lt_of_le_of_lt hdiv (lt_of_lt_of_le h3 (by norm_num))

/-- Bound on the raw temperature bit-packing over in-range bytes. -/
theorem temp_raw_lt (raw : List Nat) (h : ∀ b ∈ raw, b < 256) :
    ((raw.getD 3 0 &&& 0x0F) <<< 16) ||| (raw.getD 4 0 <<< 8) ||| raw.getD 5 0
      < 2 ^ 20 := by
  have h4 := getD_byte_lt raw 4 h
  have h5 := getD_byte_lt raw 5 h
  refine Nat.or_lt_two_pow (Nat.or_lt_two_pow ?_ ?_) ?_
  · rw [Nat.shiftLeft_eq]
    have hmask : raw.getD 3 0 &&& 0x0F < 16 :=
      lt_of_le_of_lt Nat.and_le_right (by norm_num)
    calc (raw.getD 3 0 &&& 0x0F) * 2 ^ 16 < 16 * 2 ^ 16 :=
          mul_lt_mul_of_pos_right hmask (by norm_num)
      _ ≤ 2 ^ 20 := by norm_num
  · rw [Nat.shiftLeft_eq]
    calc raw.getD 4 0 * 2 ^ 8 < 256 * 2 ^ 8 :=
          mul_lt_mul_of_pos_right h4 (by norm_num)
      _ ≤ 2 ^ 20 := by norm_num
  · exact lt_of_lt_of_le h5 (by norm_num)

/-- The success branch of `dht20_parse_sample`, written out. -/
theorem parse_sample_success (raw : List Nat) (nowUs : Nat) (s : dht20_sample_t)
    (hbusy : raw.getD 0 0 &&& DHT20_STATUS_BUSY_MASK = 0)
    (hcrc : dht20_crc8 (raw.take 6) = raw.getD 6 0) :
    dht20_parse_sample raw nowUs s =
      (ESP_OK,
        { timestamp_us := nowUs
          humidity_raw :=
            (raw.getD 1 0 <<< 12) ||| (raw.getD 2 0 <<< 4) ||| (raw.getD 3 0 >>> 4)
          temperature_raw :=
            ((raw.getD 3 0 &&& 0x0F) <<< 16) ||| (raw.getD 4 0 <<< 8) ||| raw.getD 5 0
          humidity_rh := dht20_humidity_from_raw
            ((raw.getD 1 0 <<< 12) ||| (raw.getD 2 0 <<< 4) ||| (raw.getD 3 0 >>> 4))
          temperature_c := dht20_temperature_from_raw
            (((raw.getD 3 0 &&& 0x0F) <<< 16) ||| (raw.getD 4 0 <<< 8) ||| raw.getD 5 0) }) := by
  have hbusy' : ¬ (raw.getD 0 0 &&& DHT20_STATUS_BUSY_MASK ≠ 0) :=
    fun hne => hne hbusy
  have h6 : DHT20_DATA_LEN - 1 = 6 := by norm_num [DHT20_DATA_LEN]
  unfold dht20_parse_sample
  rw [if_neg hbusy', h6, if_neg (fun hne => hne hcrc)]

/-- `ESP_OK` is only reached through the success branch. -/
theorem parse_sample_ok_elim (raw : List Nat) (nowUs : Nat) (s : dht20_sample_t)
    (hok : (dht20_parse_sample raw nowUs s).1 = ESP_OK) :
    raw.getD 0 0 &&& DHT20_STATUS_BUSY_MASK = 0 ∧
      dht20_crc8 (raw.take 6) = raw.getD 6 0 := by
  unfold dht20_parse_sample at hok
  by_cases hbusy : raw.getD 0 0 &&& DHT20_STATUS_BUSY_MASK ≠ 0
  · rw [if_pos hbusy] at hok
    have hok' : ESP_ERR_INVALID_STATE = ESP_OK := hok
    exact absurd hok' (by decide)
  · rw [if_neg hbusy] at hok
    push_neg at hbusy
    by_cases hcrc : dht20_crc8 (raw.take (DHT20_DATA_LEN - 1)) ≠
        raw.getD (DHT20_DATA_LEN - 1) 0
    · rw [if_pos hcrc] at hok
      have hok' : ESP_ERR_INVALID_CRC = ESP_OK := hok
      exact absurd hok' (by decide)
    · push_neg at hcrc
      have h6 : DHT20_DATA_LEN - 1 = 6 := by norm_num [DHT20_DATA_LEN]
      rw [h6] at hcrc
      exact ⟨hbusy, hcrc⟩

/-- C2: for every 7-byte frame whose status byte has the top bit set,
`dht20_parse_sample` reports the busy condition (`ESP_ERR_INVALID_STATE`)
and leaves the out-parameter untouched, regardless of the checksum byte;
the checksum is only examined when the busy bit is clear. -/
theorem C2_busy_overrides_checksum (raw : List Nat) (nowUs : Nat)
    (sample : dht20_sample_t)
    (hbusy : raw.getD 0 0 &&& DHT20_STATUS_BUSY_MASK ≠ 0) :
    dht20_parse_sample raw nowUs sample = (ESP_ERR_INVALID_STATE, sample) := by
  unfold dht20_parse_sample
  rw [if_pos hbusy]

/-- Witness for C2 at a frame whose busy bit is set and whose checksum
byte is wrong. -/
theorem C2_busy_overrides_checksum_witness :
    dht20_crc8 (busyBadCrcFrame.take 6) ≠ busyBadCrcFrame.getD 6 0 ∧
      dht20_parse_sample busyBadCrcFrame 5 sample0 =
        (ESP_ERR_INVALID_STATE, sample0) :=
  ⟨by decide, C2_busy_overrides_checksum busyBadCrcFrame 5 sample0 (by decide)⟩

/-- C3: for every frame with busy bit clear, `dht20_parse_sample` reports
`ESP_ERR_INVALID_CRC` exactly when the CRC-8 (poly 0x31, init 0xFF,
MSB-first, no final XOR) of bytes 0-5 differs from byte 6, and succeeds
when it matches. -/
theorem C3_checksum_gate (raw : List Nat) (nowUs : Nat) (s : dht20_sample_t)
    (hbusy : raw.getD 0 0 &&& DHT20_STATUS_BUSY_MASK = 0) :
    ((dht20_parse_sample raw nowUs s).1 = ESP_ERR_INVALID_CRC ↔
        dht20_crc8 (raw.take 6) ≠ raw.getD 6 0) ∧
      (dht20_crc8 (raw.take 6) = raw.getD 6 0 →
        (dht20_parse_sample raw nowUs s).1 = ESP_OK) := by
  have h6 : DHT20_DATA_LEN - 1 = 6 := by norm_num [DHT20_DATA_LEN]
  constructor
  · constructor
    · intro h1 hcrc
      rw [parse_sample_success raw nowUs s hbusy hcrc] at h1
      have h1' : ESP_OK = ESP_ERR_INVALID_CRC := h1
      exact absurd h1' (by decide)
    · intro hcrc
      unfold dht20_parse_sample
      rw [if_neg (fun hne => hne hbusy), h6, if_pos hcrc]
  · intro hcrc
    rw [parse_sample_success raw nowUs s hbusy hcrc]

/-- Witness for C3: a good frame decodes to `ESP_OK`; the same frame with
a corrupted checksum byte decodes to `ESP_ERR_INVALID_CRC`. -/
theorem C3_checksum_gate_witness :
    (dht20_parse_sample goodFrame 5 sample0).1 = ESP_OK ∧
      (dht20_parse_sample [0x00, 0x66, 0x66, 0x66, 0x33, 0x33, 0x64] 5
          sample0).1 = ESP_ERR_INVALID_CRC :=
  ⟨(C3_checksum_gate goodFrame 5 sample0 (by decide)).2 (by decide),
   (C3_checksum_gate [0x00, 0x66, 0x66, 0x66, 0x33, 0x33, 0x64] 5
      sample0 (by decide)).1.mpr (by decide)⟩

/-- C7: `dht20_sample_apply_offset` adds the temperature offset without
clamping and adds the humidity offset with clamping to [0,100]; 99 % RH
with a +5 offset yields exactly 100, and 2 % RH with a -5 offset yields
exactly 0. -/
theorem C7_apply_offset (s : dht20_sample_t) (tOff hOff : ℚ) :
    (dht20_sample_apply_offset s tOff hOff).1 = ESP_OK ∧
    (dht20_sample_apply_offset s tOff hOff).2.temperature_c =
        s.temperature_c + tOff ∧
    (dht20_sample_apply_offset s tOff hOff).2.humidity_rh =
        dht20_clampf (s.humidity_rh + hOff) 0 100 ∧
    (dht20_sample_apply_offset { sample0 with humidity_rh := 99 } 0
        5).2.humidity_rh = 100 ∧
    (dht20_sample_apply_offset { sample0 with humidity_rh := 2 } 0
        (-5)).2.humidity_rh = 0 := by
  refine ⟨rfl, rfl, rfl, ?_, ?_⟩ <;>
    norm_num [dht20_sample_apply_offset, dht20_clampf, sample0]

/-- C9: `dht20_filter_reset` clears only the initialized flag; alpha and
the accumulated smoothed values are unchanged. -/
theorem C9_reset_only_clears_flag (f : dht20_filter_t) :
    (dht20_filter_reset f).initialized = false ∧
      (dht20_filter_reset f).alpha = f.alpha ∧
      (dht20_filter_reset f).humidity_rh = f.humidity_rh ∧
      (dht20_filter_reset f).temperature_c = f.temperature_c :=
  ⟨rfl, rfl, rfl, rfl⟩

/-- C10: whenever `dht20_read_measurement` returns a non-`ESP_OK` result
(transport error, busy, or checksum mismatch), the caller's sample
out-parameter is unmodified. -/
theorem C10_failure_leaves_sample (transport : Nat × List Nat) (nowUs : Nat)
    (s : dht20_sample_t)
    (hfail : (dht20_read_measurement transport nowUs s).1 ≠ ESP_OK) :
    (dht20_read_measurement transport nowUs s).2 = s := by
  unfold dht20_read_measurement at hfail ⊢
  by_cases ht : transport.1 ≠ ESP_OK
  · rw [if_pos ht]
  · rw [if_neg ht] at hfail ⊢
    unfold dht20_parse_sample at hfail ⊢
    by_cases hb : transport.2.getD 0 0 &&& DHT20_STATUS_BUSY_MASK ≠ 0
    · rw [if_pos hb]
    · rw [if_neg hb] at hfail ⊢
      by_cases hc : dht20_crc8 (transport.2.take (DHT20_DATA_LEN - 1)) ≠
          transport.2.getD (DHT20_DATA_LEN - 1) 0
      · rw [if_pos hc]
      · rw [if_neg hc] at hfail
        exact absurd rfl hfail

/-- Witness for C10 at a failing transport read. -/
theorem C10_failure_leaves_sample_witness :
    (dht20_read_measurement (ESP_ERR_TIMEOUT, []) 5 sample0).2 = sample0 :=
  C10_failure_leaves_sample (ESP_ERR_TIMEOUT, []) 5 sample0 (by decide)

/-- In the poll loop, `ESP_ERR_TIMEOUT` is only produced from a busy
iteration whose elapsed time has reached the timeout, provided no
attempt itself returned the `ESP_ERR_TIMEOUT` code. -/
theorem wait_timeout_only_late (timeoutUs : Int) (trace : List (Nat × Int))
    (hnota : ∀ p ∈ trace, p.1 ≠ ESP_ERR_TIMEOUT)
    (hres : dht20_read_measurement_wait timeoutUs trace =
      some ESP_ERR_TIMEOUT) :
    ∃ p ∈ trace, p.1 = ESP_ERR_INVALID_STATE ∧ timeoutUs ≤ p.2 := by
  induction trace with
  | nil => simp [dht20_read_measurement_wait] at hres
  | cons p rest ih =>
    obtain ⟨err, elapsedUs⟩ := p
    unfold dht20_read_measurement_wait at hres
    by_cases hok : err = ESP_OK
    · rw [if_pos hok] at hres
      exact absurd (Option.some.inj hres) (by decide)
    · rw [if_neg hok] at hres
      by_cases hbusy : err ≠ ESP_ERR_INVALID_STATE
      · rw [if_pos hbusy] at hres
        exact absurd (Option.some.inj hres)
          (hnota (err, elapsedUs) (List.mem_cons_self _ _))
      · push_neg at hbusy
        rw [if_neg (fun hne => hne hbusy)] at hres
        by_cases hlate : elapsedUs ≥ timeoutUs
        · exact ⟨(err, elapsedUs), List.mem_cons_self _ _, hbusy, hlate⟩
        · rw [if_neg hlate] at hres
          obtain ⟨q, hq, hq2⟩ :=
            ih (fun r hr => hnota r (List.mem_cons_of_mem _ hr)) hres
          exact ⟨q, List.mem_cons_of_mem _ hq, hq2⟩

theorem hum_from_raw_mem (n : Nat) (h : n < 2 ^ 20) :
    0 ≤ dht20_humidity_from_raw n ∧ dht20_humidity_from_raw n < 100 := by
  unfold dht20_humidity_from_raw
  have h' : n < 1048576 := by norm_num at h; exact h
  have hq : (n : ℚ) < 1048576 := by exact_mod_cast h'
  constructor
  · positivity
  · rw [div_lt_iff₀ (by norm_num : (0 : ℚ) < 1048576)]
    linarith

/-- C1: in the poll-with-timeout loop, a busy (`ESP_ERR_INVALID_STATE`)
attempt before the deadline causes another attempt; any other failure is
returned on its first occurrence; and `ESP_ERR_TIMEOUT` arises only from a
busy attempt whose elapsed time has reached the caller's timeout (assuming
no attempt itself yields the `ESP_ERR_TIMEOUT` code), and is returned as
soon as a busy attempt observes elapsed ≥ timeout. -/
theorem C1_poll_with_timeout (timeoutUs : Int) (trace : List (Nat × Int)) :
    (∀ err elapsedUs rest, err ≠ ESP_OK → err ≠ ESP_ERR_INVALID_STATE →
        dht20_read_measurement_wait timeoutUs ((err, elapsedUs) :: rest) =
          some err) ∧
    (∀ elapsedUs rest, elapsedUs < timeoutUs →
        dht20_read_measurement_wait timeoutUs
            ((ESP_ERR_INVALID_STATE, elapsedUs) :: rest) =
          dht20_read_measurement_wait timeoutUs rest) ∧
    (∀ elapsedUs rest, timeoutUs ≤ elapsedUs →
        dht20_read_measurement_wait timeoutUs
            ((ESP_ERR_INVALID_STATE, elapsedUs) :: rest) =
          some ESP_ERR_TIMEOUT) ∧
    ((∀ p ∈ trace, p.1 ≠ ESP_ERR_TIMEOUT) →
        dht20_read_measurement_wait timeoutUs trace = some ESP_ERR_TIMEOUT →
        ∃ p ∈ trace, p.1 = ESP_ERR_INVALID_STATE ∧ timeoutUs ≤ p.2) := by
  refine ⟨?_, ?_, ?_, wait_timeout_only_late timeoutUs trace⟩
  · intro err elapsedUs rest hok hbusy
    unfold dht20_read_measurement_wait
    rw [if_neg hok, if_pos hbusy]
  · intro elapsedUs rest hlt
    rw [dht20_read_measurement_wait]
    rw [if_neg (by decide), if_neg (by decide), if_neg (not_le.mpr hlt)]
  · intro elapsedUs rest hge
    rw [dht20_read_measurement_wait]
    rw [if_neg (by decide), if_neg (by decide), if_pos hge]

/-- Witness for C1: a checksum error is returned immediately, and a
busy-only trace that returns timeout contains a late busy attempt. -/
theorem C1_poll_with_timeout_witness :
    dht20_read_measurement_wait 1000 [(ESP_ERR_INVALID_CRC, 5)] =
        some ESP_ERR_INVALID_CRC ∧
      (∃ p ∈ [(ESP_ERR_INVALID_STATE, (500 : Int)),
          (ESP_ERR_INVALID_STATE, 1200)],
        p.1 = ESP_ERR_INVALID_STATE ∧ (1000 : Int) ≤ p.2) :=
  ⟨(C1_poll_with_timeout 1000 []).1 ESP_ERR_INVALID_CRC 5 []
      (by decide) (by decide),
   (C1_poll_with_timeout 1000 [(ESP_ERR_INVALID_STATE, 500),
        (ESP_ERR_INVALID_STATE, 1200)]).2.2.2 (by decide) (by decide)⟩

/-- C4: on every successful decode the raw counts follow the bit-packing
formulas and are strictly below 2^20 for all in-range byte values. -/
theorem C4_raw_extraction (raw : List Nat) (nowUs : Nat) (s : dht20_sample_t)
    (hbytes : ∀ b ∈ raw, b < 256)
    (hok : (dht20_parse_sample raw nowUs s).1 = ESP_OK) :
    (dht20_parse_sample raw nowUs s).2.humidity_raw =
        ((raw.getD 1 0 <<< 12) ||| (raw.getD 2 0 <<< 4) |||
          (raw.getD 3 0 >>> 4)) ∧
    (dht20_parse_sample raw nowUs s).2.temperature_raw =
        (((raw.getD 3 0 &&& 0x0F) <<< 16) ||| (raw.getD 4 0 <<< 8) |||
          raw.getD 5 0) ∧
    (dht20_parse_sample raw nowUs s).2.humidity_raw < 2 ^ 20 ∧
    (dht20_parse_sample raw nowUs s).2.temperature_raw < 2 ^ 20 := by
  obtain ⟨hbusy, hcrc⟩ := parse_sample_ok_elim raw nowUs s hok
  rw [parse_sample_success raw nowUs s hbusy hcrc]
  exact ⟨rfl, rfl, hum_raw_lt raw hbytes, temp_raw_lt raw hbytes⟩

/-- Witness for C4 at a concrete valid frame. -/
theorem C4_raw_extraction_witness :
    (dht20_parse_sample goodFrame 5 sample0).2.humidity_raw = 419430 ∧
      (dht20_parse_sample goodFrame 5 sample0).2.temperature_raw = 406323 ∧
      (dht20_parse_sample goodFrame 5 sample0).2.humidity_raw < 2 ^ 20 ∧
      (dht20_parse_sample goodFrame 5 sample0).2.temperature_raw < 2 ^ 20 := by
  obtain ⟨h1, h2, h3, h4⟩ :=
    C4_raw_extraction goodFrame 5 sample0 (by decide) (by decide)
  refine ⟨?_, ?_, h3, h4⟩
  · rw [h1]; decide
  · rw [h2]; decide

/-- C5: on every successful decode the physical values follow the linear
transfer functions; raw 0 maps to 0 % RH and -50 degC, raw 2^20 maps to
exactly 100 % RH and 150 degC. -/
theorem C5_unit_conversion (raw : List Nat) (nowUs : Nat) (s : dht20_sample_t)
    (hok : (dht20_parse_sample raw nowUs s).1 = ESP_OK) :
    (dht20_parse_sample raw nowUs s).2.humidity_rh =
        ((dht20_parse_sample raw nowUs s).2.humidity_raw : ℚ) * 100 / 2 ^ 20 ∧
    (dht20_parse_sample raw nowUs s).2.temperature_c =
        ((dht20_parse_sample raw nowUs s).2.temperature_raw : ℚ) * 200 /
          2 ^ 20 - 50 ∧
    dht20_humidity_from_raw 0 = 0 ∧
    dht20_temperature_from_raw 0 = -50 ∧
    dht20_humidity_from_raw (2 ^ 20) = 100 ∧
    dht20_temperature_from_raw (2 ^ 20) = 150 := by
  obtain ⟨hbusy, hcrc⟩ := parse_sample_ok_elim raw nowUs s hok
  rw [parse_sample_success raw nowUs s hbusy hcrc]
  refine ⟨?_, ?_, ?_, ?_, ?_, ?_⟩ <;>
    norm_num [dht20_humidity_from_raw, dht20_temperature_from_raw]

/-- Witness for C5 at a concrete valid frame. -/
theorem C5_unit_conversion_witness :
    (dht20_parse_sample goodFrame 5 sample0).2.humidity_rh =
        ((dht20_parse_sample goodFrame 5 sample0).2.humidity_raw : ℚ) *
          100 / 2 ^ 20 ∧
      dht20_humidity_from_raw (2 ^ 20) = 100 := by
  obtain ⟨h1, _, _, _, h5, _⟩ :=
    C5_unit_conversion goodFrame 5 sample0 (by decide)
  exact ⟨h1, h5⟩

/-- A freshly initialized filter state (alpha = 1/2). -/
def filterInit0 : dht20_filter_t :=
  { initialized := false, alpha := 1/2, humidity_rh := 0, temperature_c := 0 }

/-- A sample whose humidity lies outside [0,100]. -/
def overRangeSample : dht20_sample_t :=
  { timestamp_us := 0, humidity_raw := 0, temperature_raw := 0,
    humidity_rh := 150, temperature_c := 25 }

/-- First-apply behaviour of `dht20_filter_apply`: the state is seeded
from the input with no blending; the output humidity is clamped. -/
theorem filter_apply_first (filter : dht20_filter_t) (input : dht20_sample_t)
    (halpha : filter.alpha > 0 ∧ filter.alpha ≤ 1)
    (hinit : filter.initialized = false) :
    dht20_filter_apply filter input =
      (ESP_OK,
       { initialized := true, alpha := filter.alpha,
         humidity_rh := input.humidity_rh,
         temperature_c := input.temperature_c },
       some { input with
                temperature_c := input.temperature_c
                humidity_rh := dht20_clampf input.humidity_rh 0 100 }) := by
  unfold dht20_filter_apply
  rw [if_neg (not_not_intro halpha), hinit]
  rfl

/-- Subsequent-apply behaviour of `dht20_filter_apply`: exponential
blending per channel; the output humidity is clamped. -/
theorem filter_apply_next (filter : dht20_filter_t) (input : dht20_sample_t)
    (halpha : filter.alpha > 0 ∧ filter.alpha ≤ 1)
    (hinit : filter.initialized = true) :
    dht20_filter_apply filter input =
      (ESP_OK,
       { initialized := true, alpha := filter.alpha,
         humidity_rh := filter.alpha * input.humidity_rh
           + (1 - filter.alpha) * filter.humidity_rh,
         temperature_c := filter.alpha * input.temperature_c
           + (1 - filter.alpha) * filter.temperature_c },
       some { input with
                temperature_c := filter.alpha * input.temperature_c
                  + (1 - filter.alpha) * filter.temperature_c
                humidity_rh := dht20_clampf (filter.alpha * input.humidity_rh
                  + (1 - filter.alpha) * filter.humidity_rh) 0 100 }) := by
  unfold dht20_filter_apply
  rw [if_neg (not_not_intro halpha), hinit]
  rfl

/-- Counterexample to C6 as stated: on the first apply after init the
output does not always equal the input exactly — the output humidity is
clamped to [0,100] even on the first call, so an input of 150 % RH comes
back as 100 % RH. -/
theorem C6_first_apply_counterexample :
    (dht20_filter_apply filterInit0 overRangeSample).2.2 ≠
      some overRangeSample := by
  rw [filter_apply_first filterInit0 overRangeSample
      (by norm_num [filterInit0]) rfl]
  intro h
  have h3 := congrArg dht20_sample_t.humidity_rh (Option.some.inj h)
  norm_num [overRangeSample, dht20_clampf] at h3

/-- C6 (amended): on the first apply after init/reset the internal values
are seeded from the input with no blending and the output equals the input
except that its humidity is clamped to [0,100] (hence equals the input
exactly whenever the input humidity is in [0,100]); on every subsequent
apply the internal values blend as alpha*input + (1-alpha)*smoothed
independently per channel, the output temperature is the unclamped
smoothed value, and the output humidity is the smoothed value clamped. -/
theorem C6_filter_apply_amended (filter : dht20_filter_t)
    (input : dht20_sample_t)
    (halpha : filter.alpha > 0 ∧ filter.alpha ≤ 1) :
    (filter.initialized = false →
        dht20_filter_apply filter input =
          (ESP_OK,
           { initialized := true, alpha := filter.alpha,
             humidity_rh := input.humidity_rh,
             temperature_c := input.temperature_c },
           some { input with
                    temperature_c := input.temperature_c
                    humidity_rh := dht20_clampf input.humidity_rh 0 100 })) ∧
    (filter.initialized = false → 0 ≤ input.humidity_rh →
        input.humidity_rh ≤ 100 →
        (dht20_filter_apply filter input).2.2 = some input) ∧
    (filter.initialized = true →
        dht20_filter_apply filter input =
          (ESP_OK,
           { initialized := true, alpha := filter.alpha,
             humidity_rh := filter.alpha * input.humidity_rh
               + (1 - filter.alpha) * filter.humidity_rh,
             temperature_c := filter.alpha * input.temperature_c
               + (1 - filter.alpha) * filter.temperature_c },
           some { input with
                    temperature_c := filter.alpha * input.temperature_c
                      + (1 - filter.alpha) * filter.temperature_c
                    humidity_rh := dht20_clampf (filter.alpha * input.humidity_rh
                      + (1 - filter.alpha) * filter.humidity_rh) 0 100 })) := by
  refine ⟨filter_apply_first filter input halpha, ?_,
    filter_apply_next filter input halpha⟩
  intro hinit h0 h100
  rw [filter_apply_first filter input halpha hinit,
    clampf_eq_self _ h0 h100]

/-- Witness for the amended C6: in-range first apply returns the input. -/
theorem C6_filter_apply_amended_witness :
    (dht20_filter_apply filterInit0
        { sample0 with humidity_rh := 40 }).2.2 =
      some { sample0 with humidity_rh := 40 } :=
  (C6_filter_apply_amended filterInit0 { sample0 with humidity_rh := 40 }
      (by norm_num [filterInit0])).2.1 rfl (by norm_num [sample0])
    (by norm_num [sample0])

/-- C8: the humidity of a sample lies in [0,100] after every pipeline
operation — a successful decode yields humidity in [0,100) for in-range
bytes, offset application and filter application always produce humidity
in [0,100] — while temperature is unconstrained (the offset path can
produce any rational temperature). -/
theorem C8_humidity_invariant (raw : List Nat) (nowUs : Nat)
    (s : dht20_sample_t) (hbytes : ∀ b ∈ raw, b < 256) :
    ((dht20_parse_sample raw nowUs s).1 = ESP_OK →
        0 ≤ (dht20_parse_sample raw nowUs s).2.humidity_rh ∧
          (dht20_parse_sample raw nowUs s).2.humidity_rh < 100) ∧
    (∀ s' tOff hOff,
        0 ≤ (dht20_sample_apply_offset s' tOff hOff).2.humidity_rh ∧
          (dht20_sample_apply_offset s' tOff hOff).2.humidity_rh ≤ 100) ∧
    (∀ f input out, (dht20_filter_apply f input).2.2 = some out →
        0 ≤ out.humidity_rh ∧ out.humidity_rh ≤ 100) ∧
    (∀ c : ℚ, ∃ s' tOff,
        (dht20_sample_apply_offset s' tOff 0).2.temperature_c = c) := by
  refine ⟨?_, ?_, ?_, ?_⟩
  · intro hok
    obtain ⟨hbusy, hcrc⟩ := parse_sample_ok_elim raw nowUs s hok
    rw [parse_sample_success raw nowUs s hbusy hcrc]
    exact hum_from_raw_mem _ (hum_raw_lt raw hbytes)
  · intro s' tOff hOff
    exact clampf_mem _
  · intro f input out hout
    unfold dht20_filter_apply at hout
    by_cases hg : ¬(f.alpha > 0 ∧ f.alpha ≤ 1)
    · rw [if_pos hg] at hout
      exact Option.noConfusion hout
    · rw [if_neg hg] at hout
      have hXeq := Option.some.inj hout
      subst hXeq
      exact clampf_mem _
  · intro c
    exact ⟨sample0, c, zero_add c⟩

/-- Witness for C8 at a concrete valid frame. -/
theorem C8_humidity_invariant_witness :
    0 ≤ (dht20_parse_sample goodFrame 5 sample0).2.humidity_rh ∧
      (dht20_parse_sample goodFrame 5 sample0).2.humidity_rh < 100 :=
  (C8_humidity_invariant goodFrame 5 sample0 (by decide)).1 (by decide)
